import Mathlib

/-!
Shallow embedding of the Mask-N-Go rental core (repository code under
`src/controllers`, `src/INTEGRADORA/controllers`, `src/models`,
`src/INTEGRADORA/config/database.py`).

Conventions of the embedding:
* Python `float` money amounts are modelled as `ℚ` (the source only ever
  adds, multiplies and compares them).
* Python `int` quantities, stock counters, ids and row counts are `Int`.
* `datetime` instants are `Int` seconds; `timedelta(days = d)` is `d * 86400`
  and `timedelta.days` is floor division by `86400` (`Int.fdiv`).
* Database tables (`INVENTARIO`, `RENTAS`, `DETALLE_RENTAS`) are Lean lists of
  row structures; a SQL `UPDATE ... WHERE Codigo_Barras = x` maps over every
  row whose key matches.
* `ConexionDB.ejecutar_insert` / `ejecutar_update` (config/database.py) commit
  after every single statement and swallow database errors (they return
  `None`, which the callers mostly ignore).  Functions that issue several
  statements therefore take a failure oracle `falla : Nat → Bool` giving, per
  statement index in execution order, whether that statement raises a database
  error; a failed auto-committed statement leaves the database unchanged while
  earlier committed statements persist.  The one genuinely transactional code
  path, `controllers/renta_controller.registrar_renta`, runs all its statements
  on a single cursor and commits once at the end, rolling everything back when
  any statement fails; its model discards every pending write in that case.
* The repository holds two near-duplicate copies of the core; they are
  embedded in the namespaces `controllers` (top-level `src/controllers`,
  `src/models`) and `INTEGRADORA` (`src/INTEGRADORA/controllers`).
-/

namespace MaskNGo

/-- Row of the `INVENTARIO` table / `models/disfraz.py` `Disfraz` object. -/
structure Disfraz where
  codigo_barras : String
  descripcion : String
  precio_venta : ℚ
  precio_renta : ℚ
  stock : Int
  disponible : Int
  estado : String
deriving DecidableEq, Repr

/-- The `INVENTARIO` table. -/
abbrev Inventario := List Disfraz

/-- `Disfraz.esta_activo` (models/disfraz.py): `estado == 'Activo'`. -/
def Disfraz.esta_activo (d : Disfraz) : Bool :=
  d.estado == "Activo"

/-- `SELECT * FROM INVENTARIO WHERE Codigo_Barras = %s` followed by
`Disfraz.from_db_row`, i.e. `InventarioController.buscar_por_codigo`
(identical in both copies): the first row with the given key, if any. -/
def buscar_por_codigo (inv : Inventario) (codigo : String) : Option Disfraz :=
  inv.find? (fun d => d.codigo_barras == codigo)

/-- `UPDATE INVENTARIO SET Disponible = Disponible + delta WHERE Codigo_Barras = codigo`
(the relative update used by the top-level `controllers` copy). -/
def actualizar_disponible_rel (inv : Inventario) (codigo : String) (delta : Int) : Inventario :=
  inv.map (fun d =>
    if d.codigo_barras == codigo then { d with disponible := d.disponible + delta } else d)

/-- `UPDATE INVENTARIO SET Disponible = v WHERE Codigo_Barras = codigo`
(the absolute update used by the `INTEGRADORA` copy). -/
def actualizar_disponible_abs (inv : Inventario) (codigo : String) (v : Int) : Inventario :=
  inv.map (fun d =>
    if d.codigo_barras == codigo then { d with disponible := v } else d)

/-- Current `Disponible` of a key, read back through `buscar_por_codigo`. -/
def disponible_de (inv : Inventario) (codigo : String) : Option Int :=
  (buscar_por_codigo inv codigo).map (fun d => d.disponible)

/-- The Inventory Ledger invariant of the specification:
`0 ≤ available ≤ totalStock` for every item. -/
def invariante (inv : Inventario) : Prop :=
  ∀ d ∈ inv, 0 ≤ d.disponible ∧ d.disponible ≤ d.stock

instance (inv : Inventario) : Decidable (invariante inv) :=
  inferInstanceAs (Decidable (∀ d ∈ inv, 0 ≤ d.disponible ∧ d.disponible ≤ d.stock))

/-- `Codigo_Barras` is the primary key of `INVENTARIO`: no two rows share it. -/
def codigos_unicos (inv : Inventario) : Prop :=
  (inv.map (fun d => d.codigo_barras)).Nodup

instance (inv : Inventario) : Decidable (codigos_unicos inv) :=
  inferInstanceAs (Decidable ((inv.map (fun d : Disfraz => d.codigo_barras)).Nodup))

namespace controllers

/-- `InventarioController.verificar_disponibilidad`
(src/controllers/inventario_controller.py, lines 404-431).
Returns `(hay_stock, mensaje, disponible_actual)`.  This copy has no check
of `cantidad ≤ 0`. -/
def verificar_disponibilidad (inv : Inventario) (codigo : String) (cantidad : Int) :
    Bool × String × Int :=
  match buscar_por_codigo inv codigo with
  | none => (false, "No existe disfraz con ese codigo", 0)
  | some d =>
    if d.esta_activo = false then (false, "El disfraz esta inactivo", 0)
    else if d.disponible < cantidad then
      (false, "Stock insuficiente", d.disponible)
    else (true, "Stock suficiente", d.disponible)

/-- `InventarioController.descontar_stock`
(src/controllers/inventario_controller.py, lines 433-469).
`ok` is whether its single auto-committed `UPDATE` statement succeeds. -/
def descontar_stock (inv : Inventario) (codigo : String) (cantidad : Int) (ok : Bool) :
    (Bool × String) × Inventario :=
  match verificar_disponibilidad inv codigo cantidad with
  | (false, m, _) => ((false, m), inv)
  | (true, _, _) =>
    if ok = false then ((false, "No se pudo actualizar el stock"), inv)
    else ((true, "Stock actualizado correctamente"),
      actualizar_disponible_rel inv codigo (-cantidad))

/-- `InventarioController.aumentar_stock`
(src/controllers/inventario_controller.py, lines 471-505).
Only checks that the row exists; there is no quantity check and no
upper bound against `Stock`. -/
def aumentar_stock (inv : Inventario) (codigo : String) (cantidad : Int) (ok : Bool) :
    (Bool × String) × Inventario :=
  match buscar_por_codigo inv codigo with
  | none => ((false, "No existe disfraz con ese codigo"), inv)
  | some _ =>
    if ok = false then ((false, "No se pudo actualizar el stock"), inv)
    else ((true, "Stock actualizado correctamente"),
      actualizar_disponible_rel inv codigo cantidad)

end controllers

namespace INTEGRADORA

/-- `InventarioController.verificar_disponibilidad`
(src/INTEGRADORA/controllers/inventario_controller.py, lines 164-192).
This copy also rejects `cantidad ≤ 0`, and reports the current
`Disponible` in both the invalid-quantity and insufficient-stock cases. -/
def verificar_disponibilidad (inv : Inventario) (codigo : String) (cantidad : Int) :
    Bool × String × Int :=
  match buscar_por_codigo inv codigo with
  | none => (false, "Disfraz no encontrado", 0)
  | some d =>
    if d.esta_activo = false then (false, "Disfraz inactivo", 0)
    else if cantidad ≤ 0 then (false, "Cantidad debe ser mayor a 0", d.disponible)
    else if d.disponible < cantidad then (false, "Stock insuficiente", d.disponible)
    else (true, "OK", d.disponible)

/-- `InventarioController.descontar_stock`
(src/INTEGRADORA/controllers/inventario_controller.py, lines 221-260):
checks existence, active state, `cantidad > 0` and availability, then writes
`Disponible = disponible - cantidad` as an absolute value.
`ok` is whether its auto-committed `UPDATE` statement succeeds. -/
def descontar_stock (inv : Inventario) (codigo : String) (cantidad : Int) (ok : Bool) :
    (Bool × String) × Inventario :=
  match buscar_por_codigo inv codigo with
  | none => ((false, "Disfraz no encontrado"), inv)
  | some d =>
    if d.esta_activo = false then ((false, "Disfraz inactivo"), inv)
    else if cantidad ≤ 0 then ((false, "La cantidad a descontar debe ser mayor a 0"), inv)
    else if d.disponible < cantidad then ((false, "Stock insuficiente"), inv)
    else if ok = false then ((false, "No se pudo actualizar el stock"), inv)
    else ((true, "Stock descontado correctamente"),
      actualizar_disponible_abs inv codigo (d.disponible - cantidad))

/-- `InventarioController.aumentar_stock`
(src/INTEGRADORA/controllers/inventario_controller.py, lines 262-305):
checks existence and `cantidad > 0`, and refuses to push `Disponible`
above `Stock`, leaving the row unchanged in that case. -/
def aumentar_stock (inv : Inventario) (codigo : String) (cantidad : Int) (ok : Bool) :
    (Bool × String) × Inventario :=
  match buscar_por_codigo inv codigo with
  | none => ((false, "Disfraz no encontrado"), inv)
  | some d =>
    if cantidad ≤ 0 then ((false, "La cantidad a aumentar debe ser mayor a 0"), inv)
    else if d.stock < d.disponible + cantidad then
      ((false, "No se puede aumentar disponible por encima del stock"), inv)
    else if ok = false then ((false, "No se pudo actualizar el stock"), inv)
    else ((true, "Stock aumentado correctamente"),
      actualizar_disponible_abs inv codigo (d.disponible + cantidad))

end INTEGRADORA

/-- A reserve (`descontar_stock`) or release (`aumentar_stock`) request against
the Inventory Ledger; `ok` is the failure-oracle value for the operation's
auto-committed `UPDATE` statement. -/
inductive LedgerOp where
  | reserve (codigo : String) (cantidad : Int) (ok : Bool)
  | release (codigo : String) (cantidad : Int) (ok : Bool)
deriving DecidableEq, Repr

/-- Resulting inventory of one ledger operation run through the top-level
`controllers` copy. -/
def controllers.aplicar_op (inv : Inventario) : LedgerOp → Inventario
  | .reserve c q ok => (controllers.descontar_stock inv c q ok).2
  | .release c q ok => (controllers.aumentar_stock inv c q ok).2

/-- Resulting inventory of one ledger operation run through the
`INTEGRADORA` copy. -/
def INTEGRADORA.aplicar_op (inv : Inventario) : LedgerOp → Inventario
  | .reserve c q ok => (INTEGRADORA.descontar_stock inv c q ok).2
  | .release c q ok => (INTEGRADORA.aumentar_stock inv c q ok).2

/-- One entry of the `detalles` argument of `registrar_renta`:
a dict `{'codigo_barras': ..., 'cantidad': ...}`.  A missing or `None`
barcode is modelled as the empty string (both are falsy in Python). -/
structure DetalleInput where
  codigo_barras : String
  cantidad : Int
deriving DecidableEq, Repr

/-- `models/renta.py` `DetalleRenta` after `calcular_subtotal(dias)`:
`subtotal = cantidad * precio_unitario * dias`. -/
structure DetalleValidado where
  codigo_barras : String
  cantidad : Int
  precio_unitario : ℚ
  subtotal : ℚ
deriving DecidableEq, Repr

/-- Row of the `DETALLE_RENTAS` table. -/
structure DetalleRow where
  id_renta : Int
  codigo_barras : String
  cantidad : Int
  precio_unitario : ℚ
  subtotal : ℚ
deriving DecidableEq, Repr

/-- `models/renta.py` `Renta`: both the in-memory object and a row of the
`RENTAS` table (`id_renta` is `none` before the insert assigns it). -/
structure Renta where
  id_renta : Option Int
  id_cliente : Int
  id_usuario : Int
  fecha_renta : Int
  fecha_devolucion : Int
  fecha_devuelto : Option Int
  penalizacion : ℚ
  dias_renta : Int
  total : ℚ
  deposito : ℚ
  estado : String
deriving DecidableEq, Repr

/-- `Renta.esta_activa`: `estado == 'Activa'`. -/
def Renta.esta_activa (r : Renta) : Bool :=
  r.estado == "Activa"

/-- `Renta.esta_devuelta`: `estado == 'Devuelto'`. -/
def Renta.esta_devuelta (r : Renta) : Bool :=
  r.estado == "Devuelto"

/-- `Renta.esta_vencida`: `estado == 'Vencida'`. -/
def Renta.esta_vencida (r : Renta) : Bool :=
  r.estado == "Vencida"

/-- `Renta.dias_de_retraso` (models/renta.py, lines 125-143), with the
current instant `ahora` passed explicitly in place of `datetime.now()`.
Uses `fecha_devuelto` as the comparison instant when set, otherwise `ahora`;
`timedelta.days` on a positive delta is floor division by 86400. -/
def Renta.dias_de_retraso (r : Renta) (ahora : Int) : Int :=
  if r.esta_activa = false ∧ r.esta_vencida = false then 0
  else
    let comparacion := r.fecha_devuelto.getD ahora
    if r.fecha_devolucion < comparacion then
      (comparacion - r.fecha_devolucion).fdiv 86400
    else 0

/-- `Renta.calcular_penalizacion` (models/renta.py, lines 145-156):
`dias_de_retraso * penalizacion_por_dia` when positive, otherwise `0`. -/
def Renta.calcular_penalizacion (r : Renta) (ahora : Int) (penalizacion_por_dia : ℚ) : ℚ :=
  let dias := r.dias_de_retraso ahora
  if 0 < dias then (dias : ℚ) * penalizacion_por_dia else 0

/-- `Renta.deposito_a_devolver` (models/renta.py): always the full deposit. -/
def Renta.deposito_a_devolver (r : Renta) : ℚ :=
  r.deposito

/-- `Renta.validar_renta` (models/renta.py, lines 192-213), with the number of
in-memory detail lines passed as `num_detalles`. -/
def Renta.validar_renta (r : Renta) (num_detalles : Nat) : Bool × String :=
  if num_detalles = 0 then (false, "La renta debe tener al menos un producto")
  else if r.dias_renta ≤ 0 then (false, "Los dias de renta deben ser mayor a 0")
  else if r.total ≤ 0 then (false, "El total debe ser mayor a 0")
  else if r.deposito < 0 then (false, "El deposito no puede ser negativo")
  else if r.fecha_devolucion ≤ r.fecha_renta then
    (false, "La fecha de devolucion debe ser posterior a la fecha de renta")
  else (true, "Renta valida")

/-- The persistent state the rental core touches: the three tables, the
auto-increment counter of `RENTAS`, and the customer / user directories
(only existence is ever queried). -/
structure DB where
  inventario : Inventario
  rentas : List Renta
  detalle_rentas : List DetalleRow
  next_id : Int
  clientes : List Int
  usuarios : List Int
deriving DecidableEq, Repr

/-- `SELECT * FROM RENTAS WHERE Id_Renta = %s` followed by
`Renta.from_db_row` (`RentaController.buscar_por_id`). -/
def buscar_renta_por_id (db : DB) (id_renta : Int) : Option Renta :=
  db.rentas.find? (fun r => r.id_renta == some id_renta)

/-- Validation loop of `controllers/renta_controller.registrar_renta`
(lines 126-158): for each input line, reject a falsy barcode or
`cantidad ≤ 0`, check `verificar_disponibilidad`, re-read the item and check
it is active, then snapshot the rental rate into a `DetalleRenta` and
accumulate the running `subtotal` and `deposito_total`
(deposit from the sale price).  Returns the validated detail list together
with the two accumulated amounts. -/
def controllers.validar_detalles (inv : Inventario) (dias : Int) :
    List DetalleInput → Except String (List DetalleValidado × ℚ × ℚ)
  | [] => .ok ([], 0, 0)
  | item :: resto =>
    if item.codigo_barras = "" ∨ item.cantidad ≤ 0 then .error "Producto invalido"
    else
      match controllers.verificar_disponibilidad inv item.codigo_barras item.cantidad with
      | (false, m, _) => .error m
      | (true, _, _) =>
        match buscar_por_codigo inv item.codigo_barras with
        | none => .error "Disfraz no encontrado"
        | some d =>
          if d.esta_activo = false then .error "El disfraz esta inactivo"
          else
            match controllers.validar_detalles inv dias resto with
            | .error m => .error m
            | .ok (dv, t, dep) =>
              let sub : ℚ := (item.cantidad : ℚ) * d.precio_renta * (dias : ℚ)
              .ok ({ codigo_barras := item.codigo_barras, cantidad := item.cantidad,
                     precio_unitario := d.precio_renta, subtotal := sub } :: dv,
                   sub + t, d.precio_venta * (item.cantidad : ℚ) + dep)

/-- `RentaController.registrar_renta` of the top-level copy
(src/controllers/renta_controller.py, lines 61-250).

All validations run before the first SQL statement.  Every statement of the
unit of work (`INSERT` header, then per line `INSERT` detail and relative
`UPDATE` of `Disponible`) executes on one cursor of one connection, with a
single `commit` at the end; any raised statement (`falla` at its index) or a
falsy `lastrowid` triggers `connection.rollback()`, discarding every pending
write.  Statement indices: 0 is the header insert; line `i` uses `2*i + 1`
(detail insert) and `2*i + 2` (stock update). -/
def controllers.registrar_renta (db : DB) (id_cliente id_usuario : Int)
    (detalles : List DetalleInput) (dias_renta : Int) (ahora : Int)
    (falla : Nat → Bool) : (Bool × String × Option Int) × DB :=
  if detalles.length = 0 then
    ((false, "La renta debe tener al menos un producto", none), db)
  else if dias_renta ≤ 0 then
    ((false, "Los dias de renta deben ser mayor a 0", none), db)
  else if 30 < dias_renta then
    ((false, "El maximo de dias de renta es 30", none), db)
  else
    match controllers.validar_detalles db.inventario dias_renta detalles with
    | .error m => ((false, m, none), db)
    | .ok (dv, subtotal, deposito_total) =>
      match Renta.validar_renta
        { id_renta := none, id_cliente := id_cliente, id_usuario := id_usuario,
          fecha_renta := ahora, fecha_devolucion := ahora + dias_renta * 86400,
          fecha_devuelto := none, penalizacion := 0, dias_renta := dias_renta,
          total := subtotal, deposito := deposito_total, estado := "Activa" }
        dv.length with
      | (false, m) => ((false, m, none), db)
      | (true, _) =>
        if falla 0 then ((false, "Error inesperado", none), db)
        else if db.next_id = 0 then ((false, "Error al registrar renta", none), db)
        else if (List.range (2 * dv.length)).any (fun i => falla (i + 1)) then
          ((false, "Error inesperado", none), db)
        else
          ((true, "Renta registrada exitosamente", some db.next_id),
           { db with
               inventario := dv.foldl
                 (fun acc v => actualizar_disponible_rel acc v.codigo_barras (-v.cantidad))
                 db.inventario,
               rentas := db.rentas ++
                 [{ id_renta := some db.next_id, id_cliente := id_cliente,
                    id_usuario := id_usuario, fecha_renta := ahora,
                    fecha_devolucion := ahora + dias_renta * 86400, fecha_devuelto := none,
                    penalizacion := 0, dias_renta := dias_renta, total := subtotal,
                    deposito := deposito_total, estado := "Activa" }],
               detalle_rentas := db.detalle_rentas ++ dv.map (fun v =>
                 { id_renta := db.next_id, codigo_barras := v.codigo_barras,
                   cantidad := v.cantidad, precio_unitario := v.precio_unitario,
                   subtotal := v.subtotal : DetalleRow }),
               next_id := db.next_id + 1 })

/-- The specification's `rentalTotal`
(`Σ quantity_i * unitRentalRatePerDay_i * requestedDays`), written from the
spec's words over the input lines and the current catalog snapshot, for
comparison with the implementation's accumulated `subtotal`. -/
def spec_rentalTotal (inv : Inventario) (detalles : List DetalleInput) (dias : Int) : ℚ :=
  (detalles.map (fun it =>
    match buscar_por_codigo inv it.codigo_barras with
    | some d => (it.cantidad : ℚ) * d.precio_renta * (dias : ℚ)
    | none => 0)).sum

/-- The specification's `depositFor` (`Σ quantity_i * unitSalePrice_i`),
written from the spec's words for comparison with the implementation's
accumulated `deposito_total`. -/
def spec_depositFor (inv : Inventario) (detalles : List DetalleInput) : ℚ :=
  (detalles.map (fun it =>
    match buscar_por_codigo inv it.codigo_barras with
    | some d => d.precio_venta * (it.cantidad : ℚ)
    | none => 0)).sum

/-- Total quantity the input lines request for one barcode. -/
def cantidad_total (detalles : List DetalleInput) (codigo : String) : Int :=
  ((detalles.filter (fun it => it.codigo_barras == codigo)).map
    (fun it => it.cantidad)).sum

/-- Total quantity the validated details carry for one barcode. -/
def suma_cantidades (dv : List DetalleValidado) (codigo : String) : Int :=
  ((dv.filter (fun v => v.codigo_barras == codigo)).map
    (fun v => v.cantidad)).sum

/-- The `info_financiera` dict returned by
`controllers/renta_controller.devolver_renta`. -/
structure InfoFinanciera where
  total_renta : ℚ
  deposito : ℚ
  dias_retraso : Int
  penalizacion : ℚ
  deposito_devuelto : ℚ
  cobrar_adicional : ℚ
deriving DecidableEq, Repr

/-- Release loop of `controllers/renta_controller.devolver_renta`
(lines 308-317): one auto-committed
`UPDATE INVENTARIO SET Disponible = Disponible + cantidad` per detail row,
in order, its return value ignored.  `falla k` makes statement `k` raise
inside `ejecutar_update`, which rolls back only that statement; the loop
continues either way. -/
def controllers.aplicar_devoluciones :
    List DetalleRow → (Nat → Bool) → Nat → Inventario → Inventario
  | [], _, _, inv => inv
  | d :: resto, falla, k, inv =>
    controllers.aplicar_devoluciones resto falla (k + 1)
      (if falla k then inv
       else actualizar_disponible_rel inv d.codigo_barras d.cantidad)

/-- `RentaController.devolver_renta` of the top-level copy
(src/controllers/renta_controller.py, lines 252-353).

Validates state, computes days late and penalty from the loaded row, then
issues one auto-committed `UPDATE` per detail row (statement `k` for row `k`)
followed by the auto-committed header update (statement `n` for `n` rows);
every return value is ignored, so the call reports success even when
statements fail, and committed statements are never rolled back by a later
failure.  `penalizacion_dia` is the controller instance's cached
`self.penalizacion_dia`. -/
def controllers.devolver_renta (db : DB) (id_renta id_usuario : Int) (ahora : Int)
    (penalizacion_dia : ℚ) (falla : Nat → Bool) :
    (Bool × String × Option InfoFinanciera) × DB :=
  match buscar_renta_por_id db id_renta with
  | none => ((false, "No existe renta con ese ID", none), db)
  | some renta =>
    if renta.esta_devuelta then ((false, "La renta ya fue devuelta", none), db)
    else if renta.esta_activa = false ∧ renta.esta_vencida = false then
      ((false, "La renta no puede devolverse", none), db)
    else
      let dias_retraso := renta.dias_de_retraso ahora
      let penalizacion := renta.calcular_penalizacion ahora penalizacion_dia
      let dets := db.detalle_rentas.filter (fun d => d.id_renta == id_renta)
      if dets.length = 0 then
        ((false, "No se encontraron detalles de la renta", none), db)
      else
        let inv2 := controllers.aplicar_devoluciones dets falla 0 db.inventario
        let rentas2 :=
          if falla dets.length then db.rentas
          else db.rentas.map (fun r =>
            if r.id_renta == some id_renta then
              { r with estado := "Devuelto", fecha_devuelto := some ahora,
                       penalizacion := penalizacion }
            else r)
        let info : InfoFinanciera :=
          { total_renta := renta.total, deposito := renta.deposito,
            dias_retraso := dias_retraso, penalizacion := penalizacion,
            deposito_devuelto := renta.deposito_a_devolver,
            cobrar_adicional := max 0 penalizacion }
        ((true, "Renta devuelta exitosamente", some info),
         { db with inventario := inv2, rentas := rentas2 })

/-- Whether the bulk update of `marcar_rentas_vencidas` selects a row:
`Estado = 'Activa' AND Fecha_Devolucion < NOW()`. -/
def vencida_en (ahora : Int) (r : Renta) : Bool :=
  r.estado == "Activa" && decide (r.fecha_devolucion < ahora)

/-- The effect of the sweep's bulk update on one row. -/
def marcar (ahora : Int) (r : Renta) : Renta :=
  if vencida_en ahora r then { r with estado := "Vencida" } else r

/-- `RentaController.marcar_rentas_vencidas`
(src/controllers/renta_controller.py, lines 355-384; the `INTEGRADORA` copy,
lines 420-444, issues the same bulk update with `NOW()` passed as a
parameter).  One auto-committed bulk
`UPDATE RENTAS SET Estado = 'Vencida' WHERE Estado = 'Activa' AND
Fecha_Devolucion < NOW()`; returns the affected row count, or `0` when the
statement fails (`ok = false`), in which case nothing changes. -/
def controllers.marcar_rentas_vencidas (db : DB) (ahora : Int) (ok : Bool) : Int × DB :=
  if ok = false then (0, db)
  else
    (((db.rentas.filter (vencida_en ahora)).length : Int),
     { db with rentas := db.rentas.map (marcar ahora) })

/-- `RentaController.actualizar_penalizacion_dia` of the top-level copy
(src/controllers/renta_controller.py, lines 496-523), acting on the issuing
instance's cached rate `pen_actual` and the persisted
`CONFIGURACION` value `valor_config`.  A negative amount is rejected before
any statement; otherwise one auto-committed `UPDATE` runs (`ok` = it
succeeds and matches a row), and only on success does the instance overwrite
its own `self.penalizacion_dia`.  Returns the result pair, the instance's
new cached rate, and the new persisted value. -/
def controllers.actualizar_penalizacion_dia (pen_actual valor_config nuevo : ℚ)
    (ok : Bool) : (Bool × String) × ℚ × ℚ :=
  if nuevo < 0 then
    ((false, "El monto no puede ser negativo"), pen_actual, valor_config)
  else if ok = false then
    ((false, "No se pudo actualizar la configuracion"), pen_actual, valor_config)
  else
    ((true, "Penalizacion actualizada"), nuevo, nuevo)

/-- A running process with several loaded `RentaController` instances:
the persisted `PENALIZACION_DIA` configuration value, and the
`self.penalizacion_dia` each instance cached when its constructor ran
`_cargar_penalizacion_dia`. -/
structure Sistema where
  valor_config : ℚ
  instancias : List ℚ
deriving DecidableEq, Repr

/-- Instance `i` of a loaded system issues `actualizar_penalizacion_dia`.
Only the issuing instance's cached attribute is assigned
(`self.penalizacion_dia = nuevo_monto`); no other instance is touched,
because `_cargar_penalizacion_dia` runs only in `__init__`. -/
def controllers.actualizar_en (s : Sistema) (i : Nat) (nuevo : ℚ) (ok : Bool) :
    (Bool × String) × Sistema :=
  match s.instancias[i]? with
  | none => ((false, "Instancia inexistente"), s)
  | some pen =>
    match controllers.actualizar_penalizacion_dia pen s.valor_config nuevo ok with
    | ((true, m), pen2, config2) =>
      ((true, m), { valor_config := config2, instancias := s.instancias.set i pen2 })
    | ((false, m), _, _) => ((false, m), s)

/-- Per-line validation and totalisation loop of
`INTEGRADORA/controllers/renta_controller.registrar_renta` (lines 196-230):
`verificar_disponibilidad`, re-read, reject negative prices, accumulate
`total` and `deposito`. -/
def INTEGRADORA.validar_y_totalizar (inv : Inventario) (dias : Int) :
    List DetalleInput → Except String (ℚ × ℚ)
  | [] => .ok (0, 0)
  | item :: resto =>
    match INTEGRADORA.verificar_disponibilidad inv item.codigo_barras item.cantidad with
    | (false, m, _) => .error m
    | (true, _, _) =>
      match buscar_por_codigo inv item.codigo_barras with
      | none => .error "Disfraz no encontrado"
      | some d =>
        if d.precio_renta < 0 then .error "Precio de renta no puede ser negativo"
        else if d.precio_venta < 0 then .error "Precio de venta no puede ser negativo"
        else
          match INTEGRADORA.validar_y_totalizar inv dias resto with
          | .error m => .error m
          | .ok (t, dep) =>
            .ok ((item.cantidad : ℚ) * d.precio_renta * (dias : ℚ) + t,
                 d.precio_venta * (item.cantidad : ℚ) + dep)

/-- Detail-insertion loop of
`INTEGRADORA/controllers/renta_controller.registrar_renta` (lines 262-291):
for line `i`, an auto-committed detail `INSERT` (statement `2*i + 1`) whose
failure is silently discarded, then `InventarioController.descontar_stock`
(whose own `UPDATE` is statement `2*i + 2`) whose failure is only logged.
The catalog row exists here because `validar_y_totalizar` just found it and
no statement of this call removes rows, so the attribute-error path of the
source is unreachable and the `none` branch leaves the state unchanged. -/
def INTEGRADORA.insertar_detalles (id : Int) (dias : Int) :
    List DetalleInput → (Nat → Bool) → Nat → DB → DB
  | [], _, _, db => db
  | item :: resto, falla, k, db =>
    let db2 :=
      match buscar_por_codigo db.inventario item.codigo_barras with
      | none => db
      | some d =>
        let sub : ℚ := (item.cantidad : ℚ) * d.precio_renta * (dias : ℚ)
        let db1 :=
          if falla k then db
          else { db with detalle_rentas := db.detalle_rentas ++
                   [{ id_renta := id, codigo_barras := item.codigo_barras,
                      cantidad := item.cantidad, precio_unitario := d.precio_renta,
                      subtotal := sub }] }
        { db1 with inventario :=
            (INTEGRADORA.descontar_stock db1.inventario item.codigo_barras
              item.cantidad (falla (k + 1) = false)).2 }
    INTEGRADORA.insertar_detalles id dias resto falla (k + 2) db2

/-- `RentaController.registrar_renta` of the `INTEGRADORA` copy
(src/INTEGRADORA/controllers/renta_controller.py, lines 165-298).

After validation (`_validar_datos_renta_basicos` checks customer, user,
non-empty details and positive days; the per-line loop checks availability
and non-negative prices), the header is inserted through the auto-committing
`ejecutar_insert` (statement 0): once it succeeds it is durable.  Each
detail line then runs its own auto-committed insert and stock update whose
failures are swallowed, and the call returns success regardless. -/
def INTEGRADORA.registrar_renta (db : DB) (id_cliente id_usuario : Int)
    (detalles : List DetalleInput) (dias_renta : Int) (ahora : Int)
    (falla : Nat → Bool) : (Bool × String × Option Int) × DB :=
  if (db.clientes.contains id_cliente) = false then
    ((false, "Cliente no encontrado", none), db)
  else if (db.usuarios.contains id_usuario) = false then
    ((false, "Usuario no encontrado", none), db)
  else if detalles.length = 0 then
    ((false, "La renta debe tener al menos un disfraz", none), db)
  else if dias_renta ≤ 0 then
    ((false, "Los dias de renta deben ser mayor a 0", none), db)
  else
    match INTEGRADORA.validar_y_totalizar db.inventario dias_renta detalles with
    | .error m => ((false, m, none), db)
    | .ok (total, deposito) =>
      if falla 0 then
        ((false, "Error al registrar la renta en la base de datos", none), db)
      else if db.next_id = 0 then
        ((false, "Error al registrar la renta en la base de datos", none), db)
      else
        let id := db.next_id
        let header : Renta :=
          { id_renta := some id, id_cliente := id_cliente, id_usuario := id_usuario,
            fecha_renta := ahora, fecha_devolucion := ahora + dias_renta * 86400,
            fecha_devuelto := none, penalizacion := 0, dias_renta := dias_renta,
            total := total, deposito := deposito, estado := "Activa" }
        let db1 := { db with rentas := db.rentas ++ [header], next_id := id + 1 }
        ((true, "Renta registrado correctamente", some id),
         INTEGRADORA.insertar_detalles id dias_renta detalles falla 1 db1)

/-- Scenario A item: `totalStock = 10`, `available = 10`, rental rate 150,
sale price 800, active. -/
def disfrazX : Disfraz :=
  { codigo_barras := "DIS001", descripcion := "SpiderMan", precio_venta := 800,
    precio_renta := 150, stock := 10, disponible := 10, estado := "Activo" }

/-- Fresh database holding only `disfrazX`, customer 1 and user 1. -/
def dbA : DB :=
  { inventario := [disfrazX], rentas := [], detalle_rentas := [], next_id := 1,
    clientes := [1], usuarios := [1] }

/-- `disfrazX` with 2 units reserved. -/
def disfrazX8 : Disfraz := { disfrazX with disponible := 8 }

/-- An active rental of 2 units of `disfrazX` for 3 days
(due at 259200 = 3 days in seconds). -/
def rentaB : Renta :=
  { id_renta := some 1, id_cliente := 1, id_usuario := 1, fecha_renta := 0,
    fecha_devolucion := 259200, fecha_devuelto := none, penalizacion := 0,
    dias_renta := 3, total := 900, deposito := 1600, estado := "Activa" }

/-- The line-item row of `rentaB`. -/
def detalleB : DetalleRow :=
  { id_renta := 1, codigo_barras := "DIS001", cantidad := 2,
    precio_unitario := 150, subtotal := 900 }

/-- Database state right after registering `rentaB`. -/
def dbB : DB :=
  { inventario := [disfrazX8], rentas := [rentaB], detalle_rentas := [detalleB],
    next_id := 2, clientes := [1], usuarios := [1] }

/-- A fully available single-unit item: `totalStock = 1`, `available = 1`. -/
def invPequeno : Inventario :=
  [{ codigo_barras := "DIS001", descripcion := "X", precio_venta := 800,
     precio_renta := 150, stock := 1, disponible := 1, estado := "Activo" }]

end MaskNGo

namespace MaskNGo

/-- The updates of both copies leave every row's key unchanged. -/
theorem codigo_de_actualizar_abs (a : Disfraz) (c0 : String) (v : Int) :
    (if a.codigo_barras == c0 then { a with disponible := v } else a).codigo_barras
      = a.codigo_barras := by
  split <;> rfl

/-- Relative-update analogue of `codigo_de_actualizar_abs`. -/
theorem codigo_de_actualizar_rel (a : Disfraz) (c0 : String) (delta : Int) :
    (if a.codigo_barras == c0 then { a with disponible := a.disponible + delta } else a).codigo_barras
      = a.codigo_barras := by
  split <;> rfl

/-- Looking a key up after an absolute `Disponible` update returns the old row
with the update applied when its key matches. -/
theorem buscar_actualizar_abs (inv : Inventario) (c0 c : String) (v : Int) :
    buscar_por_codigo (actualizar_disponible_abs inv c0 v) c
      = (buscar_por_codigo inv c).map
          (fun d => if d.codigo_barras == c0 then { d with disponible := v } else d) := by
  unfold buscar_por_codigo actualizar_disponible_abs
  rw [List.find?_map]
  congr 1
  congr 1
  funext d
  simp only [Function.comp_apply]
  split <;> rfl

/-- Looking a key up after a relative `Disponible` update. -/
theorem buscar_actualizar_rel (inv : Inventario) (c0 c : String) (delta : Int) :
    buscar_por_codigo (actualizar_disponible_rel inv c0 delta) c
      = (buscar_por_codigo inv c).map
          (fun d => if d.codigo_barras == c0 then
             { d with disponible := d.disponible + delta } else d) := by
  unfold buscar_por_codigo actualizar_disponible_rel
  rw [List.find?_map]
  congr 1
  congr 1
  funext d
  simp only [Function.comp_apply]
  split <;> rfl

/-- `Disponible` after a relative update, as seen through the lookup. -/
theorem disponible_de_actualizar_rel (inv : Inventario) (c0 c : String) (delta : Int) :
    disponible_de (actualizar_disponible_rel inv c0 delta) c
      = (disponible_de inv c).map (fun x => if c = c0 then x + delta else x) := by
  unfold disponible_de
  rw [buscar_actualizar_rel]
  cases h : buscar_por_codigo inv c with
  | none => rfl
  | some d =>
    have hdc : d.codigo_barras = c := by
      have h2 : List.find? (fun e : Disfraz => e.codigo_barras == c) inv = some d := h
      have h3 := List.find?_some h2
      exact eq_of_beq h3
    simp only [Option.map_some']
    by_cases he : c = c0
    · rw [if_pos (by rw [hdc, he]; simp), if_pos he]
    · rw [if_neg (by rw [hdc]; simpa using he), if_neg he]

/-- C10: for every call to the top-level copy's `registrar_renta` with more
than 30 rental days, the call fails before any statement is issued and the
database is unchanged — the implementation enforces a 30-day upper bound
(src/controllers/renta_controller.py, lines 111-112) that the spec does not
state. -/
theorem registrar_renta_rechaza_mas_de_30_dias (db : DB) (id_cliente id_usuario : Int)
    (detalles : List DetalleInput) (dias_renta : Int) (ahora : Int) (falla : Nat → Bool)
    (h : 30 < dias_renta) :
    (controllers.registrar_renta db id_cliente id_usuario detalles dias_renta ahora falla).1.1
      = false
    ∧ (controllers.registrar_renta db id_cliente id_usuario detalles dias_renta ahora falla).2
      = db := by
  unfold controllers.registrar_renta
  by_cases h1 : detalles.length = 0
  · simp [h1]
  · simp [h1, show ¬ dias_renta ≤ 0 by omega, h]

/-- Witness for `registrar_renta_rechaza_mas_de_30_dias` at 31 days. -/
theorem registrar_renta_rechaza_mas_de_30_dias_witness :
    (30 : Int) < 31
    ∧ ((controllers.registrar_renta dbA 1 1 [⟨"DIS001", 1⟩] 31 0 (fun _ => false)).1.1 = false
       ∧ (controllers.registrar_renta dbA 1 1 [⟨"DIS001", 1⟩] 31 0 (fun _ => false)).2 = dbA) :=
  ⟨by decide,
   registrar_renta_rechaza_mas_de_30_dias dbA 1 1 [⟨"DIS001", 1⟩] 31 0 (fun _ => false)
     (by decide)⟩

/-- C1 counterexample: the claimed invariant `0 ≤ available ≤ totalStock`
does not survive every ledger operation sequence.  On a fully available
single-unit item, one `release` of quantity 1 through the top-level copy's
`aumentar_stock` (which checks only that the row exists) succeeds and leaves
`available = 2 > 1 = totalStock`. -/
theorem invariante_falla_tras_release_controllers :
    invariante invPequeno
    ∧ ¬ invariante (controllers.aplicar_op invPequeno (.release "DIS001" 1 true)) := by
  decide

/-- C2 counterexample: in the `INTEGRADORA` copy's `registrar_renta`, every
statement auto-commits, so when the line-item insert (statement 1) fails
after the header insert committed, the call still reports success, the
header row persists, the stock reservation persists, and no line row exists
— nothing rolls back. -/
theorem registrar_renta_INTEGRADORA_no_atomica :
    ((INTEGRADORA.registrar_renta dbA 1 1 [⟨"DIS001", 2⟩] 3 0 (fun k => k == 1)).1.1 = true)
    ∧ (INTEGRADORA.registrar_renta dbA 1 1 [⟨"DIS001", 2⟩] 3 0 (fun k => k == 1)).2.detalle_rentas
        = []
    ∧ (INTEGRADORA.registrar_renta dbA 1 1 [⟨"DIS001", 2⟩] 3 0 (fun k => k == 1)).2.rentas.length
        = 1
    ∧ disponible_de
        (INTEGRADORA.registrar_renta dbA 1 1 [⟨"DIS001", 2⟩] 3 0 (fun k => k == 1)).2.inventario
        "DIS001" = some 8 := by
  decide

/-- C3 counterexample: `devolver_renta` issues one auto-committed `UPDATE`
per release plus one for the header and ignores every return value.  When
the header update (statement 1) fails on `dbB`, the stock release stays
committed (`available` back to 10), the rental row stays `Activa`, and the
call still reports success — nothing rolls back. -/
theorem devolver_renta_no_atomica :
    ((controllers.devolver_renta dbB 1 1 518400 50 (fun k => k == 1)).1.1 = true)
    ∧ disponible_de (controllers.devolver_renta dbB 1 1 518400 50 (fun k => k == 1)).2.inventario
        "DIS001" = some 10
    ∧ (controllers.devolver_renta dbB 1 1 518400 50 (fun k => k == 1)).2.rentas = [rentaB] := by
  decide

/-- C4 counterexample: the top-level copy's `aumentar_stock` has no
`OverRelease` guard.  On the single-unit item (`totalStock = 1`,
`available = 1`), releasing 1 more succeeds and sets `available = 2`,
silently drifting above `totalStock` instead of failing. -/
theorem aumentar_stock_controllers_sin_tope :
    buscar_por_codigo invPequeno "DIS001"
      = some { codigo_barras := "DIS001", descripcion := "X", precio_venta := 800,
               precio_renta := 150, stock := 1, disponible := 1, estado := "Activo" }
    ∧ ((controllers.aumentar_stock invPequeno "DIS001" 1 true).1.1 = true)
    ∧ disponible_de (controllers.aumentar_stock invPequeno "DIS001" 1 true).2 "DIS001"
        = some 2 := by
  decide

/-- C7 counterexample: the top-level copy's `verificar_disponibilidad` never
checks `cantidad ≤ 0`; on an active item with 10 available it answers
`ok = true` for quantity 0, where the claim requires `ok = false`. -/
theorem verificar_disponibilidad_acepta_cantidad_cero :
    ((0 : Int) ≤ 0)
    ∧ (controllers.verificar_disponibilidad [disfrazX] "DIS001" 0).1 = true := by
  decide

/-- C9 counterexample: with two loaded controller instances both holding the
startup rate 50, instance 0 updates the rate to 80; the persisted value
becomes 80 but instance 1 still caches 50, and a subsequent penalty
computation through instance 1 for a one-day-late rental charges 50, not 80
— loaded instances other than the updater do not observe the update. -/
theorem actualizar_penalizacion_no_propaga :
    ((controllers.actualizar_en ⟨50, [50, 50]⟩ 0 80 true).2.valor_config = 80)
    ∧ (controllers.actualizar_en ⟨50, [50, 50]⟩ 0 80 true).2.instancias[1]? = some 50
    ∧ Renta.calcular_penalizacion
        { id_renta := some 1, id_cliente := 1, id_usuario := 1, fecha_renta := 0,
          fecha_devolucion := 0, fecha_devuelto := none, penalizacion := 0,
          dias_renta := 1, total := 100, deposito := 100, estado := "Vencida" }
        86400
        (((controllers.actualizar_en ⟨50, [50, 50]⟩ 0 80 true).2.instancias[1]?).getD 0)
        = 50
    ∧ (50 : ℚ) ≠ 80 := by
  have hcache : (controllers.actualizar_en ⟨50, [50, 50]⟩ 0 80 true).2.instancias[1]?
      = some 50 := by decide
  refine ⟨by decide, hcache, ?_, by norm_num⟩
  rw [hcache]
  have hdias : Renta.dias_de_retraso
      { id_renta := some 1, id_cliente := 1, id_usuario := 1, fecha_renta := 0,
        fecha_devolucion := 0, fecha_devuelto := none, penalizacion := 0,
        dias_renta := 1, total := 100, deposito := 100, estado := "Vencida" } 86400 = 1 := by
    decide
  simp [Renta.calcular_penalizacion, hdias]

/-- C2 (amended): the top-level copy's `registrar_renta` is all-or-nothing.
Every validation failure is detected before any statement and every
statement failure (or missing `lastrowid`) rolls the single transaction
back, so whenever the call does not report success the database is exactly
as before.  (The `INTEGRADORA` copy violates the original claim: see its
counterexample.) -/
theorem registrar_renta_controllers_todo_o_nada (db : DB) (id_cliente id_usuario : Int)
    (detalles : List DetalleInput) (dias_renta : Int) (ahora : Int) (falla : Nat → Bool) :
    (controllers.registrar_renta db id_cliente id_usuario detalles dias_renta ahora falla).1.1
      = false →
    (controllers.registrar_renta db id_cliente id_usuario detalles dias_renta ahora falla).2
      = db := by
  unfold controllers.registrar_renta
  repeat' split
  all_goals intro h
  all_goals first | rfl | simp at h

/-- Witness for `registrar_renta_controllers_todo_o_nada`: an empty order is
rejected and the database stays untouched. -/
theorem registrar_renta_controllers_todo_o_nada_witness :
    ((controllers.registrar_renta dbA 1 1 [] 3 0 (fun _ => false)).1.1 = false)
    ∧ (controllers.registrar_renta dbA 1 1 [] 3 0 (fun _ => false)).2 = dbA :=
  ⟨by decide,
   registrar_renta_controllers_todo_o_nada dbA 1 1 [] 3 0 (fun _ => false) (by decide)⟩

/-- `Disponible` after an absolute update, as seen through the lookup. -/
theorem disponible_de_actualizar_abs (inv : Inventario) (c0 c : String) (v : Int) :
    disponible_de (actualizar_disponible_abs inv c0 v) c
      = (disponible_de inv c).map (fun x => if c = c0 then v else x) := by
  unfold disponible_de
  rw [buscar_actualizar_abs]
  cases h : buscar_por_codigo inv c with
  | none => rfl
  | some d =>
    have hdc : d.codigo_barras = c := by
      have h2 : List.find? (fun e : Disfraz => e.codigo_barras == c) inv = some d := h
      have h3 := List.find?_some h2
      exact eq_of_beq h3
    simp only [Option.map_some']
    by_cases he : c = c0
    · rw [if_pos (by rw [hdc, he]; simp), if_pos he]
    · rw [if_neg (by rw [hdc]; simpa using he), if_neg he]

/-- C4 (amended): the `INTEGRADORA` copy's `aumentar_stock` implements the
claimed policy — whenever `available + qty` would exceed `totalStock` it
fails and leaves the inventory unchanged, and when it succeeds it adds
exactly `qty` (never clamping) with the result within `totalStock`.  The
top-level copy's `aumentar_stock` violates the claim: see its
counterexample. -/
theorem aumentar_stock_INTEGRADORA_sin_desborde (inv : Inventario) (codigo : String)
    (cantidad : Int) (ok : Bool) (d : Disfraz)
    (hd : buscar_por_codigo inv codigo = some d) :
    (d.stock < d.disponible + cantidad →
      (INTEGRADORA.aumentar_stock inv codigo cantidad ok).1.1 = false
      ∧ (INTEGRADORA.aumentar_stock inv codigo cantidad ok).2 = inv)
    ∧ ((INTEGRADORA.aumentar_stock inv codigo cantidad ok).1.1 = true →
      d.disponible + cantidad ≤ d.stock
      ∧ disponible_de (INTEGRADORA.aumentar_stock inv codigo cantidad ok).2 codigo
          = some (d.disponible + cantidad)) := by
  constructor
  · intro hover
    by_cases hq : cantidad ≤ 0
    · simp [INTEGRADORA.aumentar_stock, hd, hq]
    · simp [INTEGRADORA.aumentar_stock, hd, hq, hover]
  · intro hsucc
    by_cases hq : cantidad ≤ 0
    · simp [INTEGRADORA.aumentar_stock, hd, hq] at hsucc
    · by_cases hover : d.stock < d.disponible + cantidad
      · simp [INTEGRADORA.aumentar_stock, hd, hq, hover] at hsucc
      · by_cases hok : ok = false
        · simp [INTEGRADORA.aumentar_stock, hd, hq, hover, hok] at hsucc
        · refine ⟨by omega, ?_⟩
          have h2 : (INTEGRADORA.aumentar_stock inv codigo cantidad ok).2
              = actualizar_disponible_abs inv codigo (d.disponible + cantidad) := by
            simp [INTEGRADORA.aumentar_stock, hd, hq, hover, hok]
          rw [h2, disponible_de_actualizar_abs]
          simp [disponible_de, hd]

/-- Witness for `aumentar_stock_INTEGRADORA_sin_desborde`: releasing one unit
into a fully available single-unit item fails and changes nothing. -/
theorem aumentar_stock_INTEGRADORA_sin_desborde_witness :
    (INTEGRADORA.aumentar_stock invPequeno "DIS001" 1 true).1.1 = false
    ∧ (INTEGRADORA.aumentar_stock invPequeno "DIS001" 1 true).2 = invPequeno :=
  (aumentar_stock_INTEGRADORA_sin_desborde invPequeno "DIS001" 1 true
    { codigo_barras := "DIS001", descripcion := "X", precio_venta := 800,
      precio_renta := 150, stock := 1, disponible := 1, estado := "Activo" }
    (by decide)).1 (by decide)

/-- C7 (amended): the `INTEGRADORA` copy's `verificar_disponibilidad` answers
`ok = false` exactly when the item is missing, inactive, the quantity is
non-positive, or availability is insufficient, and in the
insufficient-stock case reports the item's current availability; the call
takes the inventory only as input, so it modifies no state.  The top-level
copy violates the claim by omitting the quantity check: see its
counterexample. -/
theorem verificar_disponibilidad_INTEGRADORA_exacta (inv : Inventario) (codigo : String)
    (cantidad : Int) :
    ((INTEGRADORA.verificar_disponibilidad inv codigo cantidad).1 = false ↔
      (buscar_por_codigo inv codigo = none
       ∨ ∃ d, buscar_por_codigo inv codigo = some d
           ∧ (d.esta_activo = false ∨ cantidad ≤ 0 ∨ d.disponible < cantidad)))
    ∧ (∀ d, buscar_por_codigo inv codigo = some d → d.esta_activo = true →
        0 < cantidad → d.disponible < cantidad →
        (INTEGRADORA.verificar_disponibilidad inv codigo cantidad).2.2 = d.disponible) := by
  unfold INTEGRADORA.verificar_disponibilidad
  cases hb : buscar_por_codigo inv codigo with
  | none => simp
  | some d =>
    constructor
    · by_cases h1 : d.esta_activo = false
      · simp [h1]
      · by_cases h2 : cantidad ≤ 0
        · simp [h1, h2]
        · by_cases h3 : d.disponible < cantidad
          · simp [h1, h2, h3]
          · simp [h1, h2, h3]
    · intro d2 hd2 ha hq hlt
      have hdd : d2 = d := by injection hd2.symm
      subst hdd
      simp [ha, hlt, show ¬ cantidad ≤ 0 from by omega]

/-- Witness for `verificar_disponibilidad_INTEGRADORA_exacta`: Scenario C —
asking for 11 units of an active item with 10 available fails and reports
the current availability 10. -/
theorem verificar_disponibilidad_INTEGRADORA_exacta_witness :
    (INTEGRADORA.verificar_disponibilidad [disfrazX] "DIS001" 11).1 = false
    ∧ (INTEGRADORA.verificar_disponibilidad [disfrazX] "DIS001" 11).2.2 = 10 :=
  ⟨((verificar_disponibilidad_INTEGRADORA_exacta [disfrazX] "DIS001" 11).1).mpr
     (Or.inr ⟨disfrazX, by decide, Or.inr (Or.inr (by decide))⟩),
   (verificar_disponibilidad_INTEGRADORA_exacta [disfrazX] "DIS001" 11).2 disfrazX
     (by decide) (by decide) (by decide) (by decide)⟩

/-- C9 (amended): `actualizar_penalizacion_dia` rejects every negative rate
without touching the persisted value or any instance, and on success
persists the new rate and updates the in-memory rate of the instance that
issued the call; every other loaded instance keeps the rate it cached at
construction (it observes the update only if re-created). -/
theorem actualizar_penalizacion_dia_semantica (s : Sistema) (i : Nat) (nuevo : ℚ)
    (ok : Bool) (pen : ℚ) (h : s.instancias[i]? = some pen) :
    (nuevo < 0 →
      controllers.actualizar_en s i nuevo ok = ((false, "El monto no puede ser negativo"), s))
    ∧ (0 ≤ nuevo → ok = true →
        (controllers.actualizar_en s i nuevo ok).1.1 = true
        ∧ (controllers.actualizar_en s i nuevo ok).2.valor_config = nuevo
        ∧ (controllers.actualizar_en s i nuevo ok).2.instancias = s.instancias.set i nuevo
        ∧ ∀ j, j ≠ i →
            (controllers.actualizar_en s i nuevo ok).2.instancias[j]? = s.instancias[j]?) := by
  constructor
  · intro hneg
    simp [controllers.actualizar_en, controllers.actualizar_penalizacion_dia, h, hneg]
  · intro hpos hok
    subst hok
    have hmain : controllers.actualizar_en s i nuevo true
        = ((true, "Penalizacion actualizada"),
           { valor_config := nuevo, instancias := s.instancias.set i nuevo }) := by
      simp [controllers.actualizar_en, controllers.actualizar_penalizacion_dia, h,
        not_lt.mpr hpos]
    rw [hmain]
    refine ⟨rfl, rfl, rfl, ?_⟩
    intro j hj
    exact List.getElem?_set_ne (Ne.symm hj)

/-- Witness for `actualizar_penalizacion_dia_semantica`: with two instances
cached at 50, instance 0 successfully updates the rate to 60; the persisted
value becomes 60 while instance 1 still reads its cached 50. -/
theorem actualizar_penalizacion_dia_semantica_witness :
    (controllers.actualizar_en ⟨50, [50, 50]⟩ 0 60 true).2.valor_config = 60
    ∧ (controllers.actualizar_en ⟨50, [50, 50]⟩ 0 60 true).2.instancias[1]? = some 50 := by
  have h := (actualizar_penalizacion_dia_semantica ⟨50, [50, 50]⟩ 0 60 true 50
    (by decide)).2 (by norm_num) rfl
  refine ⟨h.2.1, ?_⟩
  rw [h.2.2.2 1 (by decide)]
  decide

/-- A pair drawn from a list zipped with its own image under `f` is of the
form `(a, f a)` with `a` in the list. -/
theorem mem_zip_map {α β : Type} (f : α → β) (l : List α) (p : α × β)
    (hp : p ∈ l.zip (l.map f)) : p.2 = f p.1 ∧ p.1 ∈ l := by
  induction l with
  | nil => cases hp
  | cons a resto ih =>
    simp only [List.map_cons, List.zip_cons_cons, List.mem_cons] at hp
    cases hp with
    | inl h =>
      subst h
      exact ⟨rfl, List.mem_cons_self a resto⟩
    | inr h =>
      obtain ⟨h1, h2⟩ := ih h
      exact ⟨h1, List.mem_cons_of_mem a h2⟩

/-- A row already swept (or not selected) is never selected again. -/
theorem vencida_en_tras_marca (ahora : Int) (r : Renta) :
    vencida_en ahora (marcar ahora r) = false := by
  cases hv : vencida_en ahora r with
  | false => simpa [marcar, hv] using hv
  | true =>
    simp only [marcar, hv, if_true, ite_true]
    simp [vencida_en]

/-- Marking a row twice is the same as marking it once. -/
theorem marcar_idempotente (ahora : Int) (r : Renta) :
    marcar ahora (marcar ahora r) = marcar ahora r := by
  have hm := vencida_en_tras_marca ahora r
  unfold marcar at hm ⊢
  by_cases hv : vencida_en ahora r <;> simp_all

/-- The sweep's affected-row count equals the number of rows whose state it
changed. -/
theorem conteo_de_cambios (ahora : Int) (l : List Renta) :
    ((l.zip (l.map (marcar ahora))).filter
      (fun p => decide (p.1.estado ≠ p.2.estado))).length
    = (l.filter (vencida_en ahora)).length := by
  induction l with
  | nil => rfl
  | cons r resto ih =>
    simp only [List.map_cons, List.zip_cons_cons, List.filter_cons]
    cases hv : vencida_en ahora r with
    | true =>
      have hestado : r.estado = "Activa" := by
        simp [vencida_en] at hv
        exact hv.1
      simp [marcar, hv, hestado]
      simpa using ih
    | false =>
      simp [marcar, hv]
      simpa using ih

/-- After one sweep pass, a second pass selects no row and changes nothing. -/
theorem barrido_segunda_pasada (ahora : Int) (l : List Renta) :
    ((l.map (marcar ahora)).filter (vencida_en ahora)) = []
    ∧ (l.map (marcar ahora)).map (marcar ahora) = l.map (marcar ahora) := by
  induction l with
  | nil => exact ⟨rfl, rfl⟩
  | cons r resto ih =>
    have hm := vencida_en_tras_marca ahora r
    refine ⟨?_, ?_⟩
    · rw [List.map_cons, List.filter_cons, hm]
      simp only [Bool.false_eq_true, if_false, ite_false]
      exact ih.1
    · rw [List.map_cons, List.map_cons, marcar_idempotente, ih.2]

/-- C8: `marcar_rentas_vencidas` returns exactly the number of rows it
changed; it flips a row to `Vencida` exactly when the row was already
`Vencida` or was `Activa` with its due date before `now`; it never touches
a row's `Penalizacion`, due date or id; and an immediate second run with
the same `now` updates zero rows and leaves the table unchanged. -/
theorem marcar_rentas_vencidas_caracterizacion (db : DB) (ahora : Int) :
    ((controllers.marcar_rentas_vencidas db ahora true).1
      = (((db.rentas.zip (controllers.marcar_rentas_vencidas db ahora true).2.rentas).filter
          (fun p => decide (p.1.estado ≠ p.2.estado))).length : Int))
    ∧ (∀ p ∈ db.rentas.zip (controllers.marcar_rentas_vencidas db ahora true).2.rentas,
        (p.2.estado = "Vencida" ↔
          (p.1.estado = "Vencida"
           ∨ (p.1.estado = "Activa" ∧ p.1.fecha_devolucion < ahora)))
        ∧ p.2.penalizacion = p.1.penalizacion
        ∧ p.2.fecha_devolucion = p.1.fecha_devolucion
        ∧ p.2.id_renta = p.1.id_renta)
    ∧ (controllers.marcar_rentas_vencidas
        (controllers.marcar_rentas_vencidas db ahora true).2 ahora true).1 = 0
    ∧ (controllers.marcar_rentas_vencidas
        (controllers.marcar_rentas_vencidas db ahora true).2 ahora true).2
      = (controllers.marcar_rentas_vencidas db ahora true).2 := by
  have hrun : controllers.marcar_rentas_vencidas db ahora true
      = (((db.rentas.filter (vencida_en ahora)).length : Int),
         { db with rentas := db.rentas.map (marcar ahora) }) := by
    simp [controllers.marcar_rentas_vencidas]
  have hrun2 : controllers.marcar_rentas_vencidas
      ({ db with rentas := db.rentas.map (marcar ahora) }) ahora true
      = ((((db.rentas.map (marcar ahora)).filter (vencida_en ahora)).length : Int),
         { db with rentas := (db.rentas.map (marcar ahora)).map (marcar ahora) }) := by
    simp [controllers.marcar_rentas_vencidas]
  refine ⟨?_, ?_, ?_, ?_⟩
  · rw [hrun]
    exact congrArg Nat.cast (conteo_de_cambios ahora db.rentas).symm
  · intro p hp
    rw [hrun] at hp
    have hp2 := mem_zip_map (marcar ahora) db.rentas p hp
    obtain ⟨hval, _⟩ := hp2
    cases hv : vencida_en ahora p.1 with
    | true =>
      have hdesc : p.1.estado = "Activa" ∧ p.1.fecha_devolucion < ahora := by
        simpa [vencida_en] using hv
      rw [hval]
      unfold marcar
      rw [hv, if_pos rfl]
      exact ⟨by simp [hdesc.1, hdesc.2], rfl, rfl, rfl⟩
    | false =>
      rw [hval]
      unfold marcar
      rw [hv, if_neg (by simp)]
      refine ⟨?_, rfl, rfl, rfl⟩
      constructor
      · intro hx
        exact Or.inl hx
      · intro hx
        cases hx with
        | inl hx => exact hx
        | inr hx =>
          exfalso
          have hcontra : vencida_en ahora p.1 = true := by
            simp [vencida_en, hx.1, hx.2]
          rw [hv] at hcontra
          cases hcontra
  · rw [hrun, hrun2, (barrido_segunda_pasada ahora db.rentas).1]
    rfl
  · rw [hrun, hrun2, (barrido_segunda_pasada ahora db.rentas).2]

/-- Statement index of the header update in `devolver_renta`: one release
statement per detail row precedes it. -/
theorem aplicar_devoluciones_sin_falla_antes (dets : List DetalleRow) (n : Nat) :
    ∀ (k : Nat) (inv : Inventario), k + dets.length ≤ n →
    controllers.aplicar_devoluciones dets (fun i => i == n) k inv
      = controllers.aplicar_devoluciones dets (fun _ => false) k inv := by
  induction dets with
  | nil => intro k inv _; rfl
  | cons d resto ih =>
    intro k inv hk
    simp only [List.length_cons] at hk
    unfold controllers.aplicar_devoluciones
    have hkn : (k == n) = false := by
      have hne : k ≠ n := by omega
      simpa using hne
    simp only [hkn, Bool.false_eq_true, if_false, ite_false]
    exact ih (k + 1) _ (by omega)

/-- C3 (amended): in `devolver_renta` the per-line stock releases and the
header update are separate auto-committed statements whose results are
ignored, not one atomic unit of work.  When the header update (the statement
after all releases) fails, every release remains committed, the rental row
keeps its previous state, and the call still reports success; only the
failing statement itself is rolled back. -/
theorem devolver_renta_autocommit (db : DB) (id_renta id_usuario : Int) (ahora : Int)
    (pen_dia : ℚ) (renta : Renta)
    (h1 : buscar_renta_por_id db id_renta = some renta)
    (h2 : renta.estado = "Activa" ∨ renta.estado = "Vencida")
    (h3 : (db.detalle_rentas.filter (fun d => d.id_renta == id_renta)).length ≠ 0) :
    (controllers.devolver_renta db id_renta id_usuario ahora pen_dia
      (fun k => k == (db.detalle_rentas.filter (fun d => d.id_renta == id_renta)).length)).1.1
      = true
    ∧ (controllers.devolver_renta db id_renta id_usuario ahora pen_dia
        (fun k => k == (db.detalle_rentas.filter (fun d => d.id_renta == id_renta)).length)).2.rentas
      = db.rentas
    ∧ (controllers.devolver_renta db id_renta id_usuario ahora pen_dia
        (fun k => k == (db.detalle_rentas.filter (fun d => d.id_renta == id_renta)).length)).2.inventario
      = controllers.aplicar_devoluciones
          (db.detalle_rentas.filter (fun d => d.id_renta == id_renta))
          (fun _ => false) 0 db.inventario := by
  have hdev : renta.esta_devuelta = false := by
    cases h2 with
    | inl h => simp [Renta.esta_devuelta, h]
    | inr h => simp [Renta.esta_devuelta, h]
  have hact : ¬ (renta.esta_activa = false ∧ renta.esta_vencida = false) := by
    cases h2 with
    | inl h => simp [Renta.esta_activa, h]
    | inr h => simp [Renta.esta_vencida, h]
  have hrel := aplicar_devoluciones_sin_falla_antes
    (db.detalle_rentas.filter (fun d => d.id_renta == id_renta))
    (db.detalle_rentas.filter (fun d => d.id_renta == id_renta)).length
    0 db.inventario (by omega)
  simp only [controllers.devolver_renta, h1, hdev, hact, h3, if_false, ite_false,
    if_neg, beq_self_eq_true, if_true, ite_true, hrel]
  simp [h3]

/-- Witness for `devolver_renta_autocommit`: returning `rentaB` when the
header update fails leaves the released stock committed, the rental row
unchanged, and still reports success. -/
theorem devolver_renta_autocommit_witness :
    (controllers.devolver_renta dbB 1 1 518400 50
      (fun k => k == (dbB.detalle_rentas.filter (fun d => d.id_renta == 1)).length)).1.1
      = true
    ∧ (controllers.devolver_renta dbB 1 1 518400 50
        (fun k => k == (dbB.detalle_rentas.filter (fun d => d.id_renta == 1)).length)).2.rentas
      = dbB.rentas
    ∧ (controllers.devolver_renta dbB 1 1 518400 50
        (fun k => k == (dbB.detalle_rentas.filter (fun d => d.id_renta == 1)).length)).2.inventario
      = controllers.aplicar_devoluciones
          (dbB.detalle_rentas.filter (fun d => d.id_renta == 1))
          (fun _ => false) 0 dbB.inventario :=
  devolver_renta_autocommit dbB 1 1 518400 50 rentaB (by decide) (Or.inl rfl) (by decide)

/-- Witness for `marcar_rentas_vencidas_caracterizacion` on `dbB` past its
due date: the count matches the changed rows and a second run updates
nothing. -/
theorem marcar_rentas_vencidas_caracterizacion_witness :
    ((controllers.marcar_rentas_vencidas dbB 300000 true).1
      = (((dbB.rentas.zip (controllers.marcar_rentas_vencidas dbB 300000 true).2.rentas).filter
          (fun p => decide (p.1.estado ≠ p.2.estado))).length : Int))
    ∧ (controllers.marcar_rentas_vencidas
        (controllers.marcar_rentas_vencidas dbB 300000 true).2 300000 true).1 = 0 :=
  ⟨(marcar_rentas_vencidas_caracterizacion dbB 300000).1,
   (marcar_rentas_vencidas_caracterizacion dbB 300000).2.2.1⟩

/-- The updates never change any row's key column. -/
theorem codigos_de_actualizar_abs (inv : Inventario) (c : String) (v : Int) :
    (actualizar_disponible_abs inv c v).map (fun d => d.codigo_barras)
      = inv.map (fun d => d.codigo_barras) := by
  unfold actualizar_disponible_abs
  rw [List.map_map]
  congr 1
  funext d
  simp only [Function.comp_apply]
  exact codigo_de_actualizar_abs d c v

/-- With unique keys, looking up a member's key finds exactly that member. -/
theorem buscar_de_unico (inv : Inventario) (h : codigos_unicos inv) (a : Disfraz)
    (ha : a ∈ inv) : buscar_por_codigo inv a.codigo_barras = some a := by
  induction inv with
  | nil => cases ha
  | cons x resto ih =>
    unfold codigos_unicos at h
    simp only [List.map_cons, List.nodup_cons] at h
    obtain ⟨hx, hresto⟩ := h
    cases List.mem_cons.mp ha with
    | inl heq =>
      subst heq
      show List.find? (fun d : Disfraz => d.codigo_barras == a.codigo_barras) (a :: resto)
        = some a
      exact List.find?_cons_of_pos _ (by simp)
    | inr hmem =>
      have hne : x.codigo_barras ≠ a.codigo_barras := by
        intro he
        exact hx (he ▸ List.mem_map_of_mem (fun d : Disfraz => d.codigo_barras) hmem)
      show List.find? (fun d : Disfraz => d.codigo_barras == a.codigo_barras) (x :: resto)
        = some a
      have hstep : List.find? (fun d : Disfraz => d.codigo_barras == a.codigo_barras)
          (x :: resto)
          = List.find? (fun d : Disfraz => d.codigo_barras == a.codigo_barras) resto :=
        List.find?_cons_of_neg _ (by simpa using hne)
      rw [hstep]
      exact ih hresto hmem

/-- An absolute update of a looked-up row keeps the ledger invariant when the
written value is within the row's bounds. -/
theorem invariante_actualizar_abs (inv : Inventario) (c : String) (v : Int) (d : Disfraz)
    (huniq : codigos_unicos inv) (hinv : invariante inv)
    (hb : buscar_por_codigo inv c = some d)
    (h0 : 0 ≤ v) (hstock : v ≤ d.stock) :
    invariante (actualizar_disponible_abs inv c v) := by
  intro e he
  unfold actualizar_disponible_abs at he
  obtain ⟨b, hbmem, hbe⟩ := List.mem_map.mp he
  by_cases hc : b.codigo_barras == c
  · have hbc : b.codigo_barras = c := eq_of_beq hc
    have hfind := buscar_de_unico inv huniq b hbmem
    rw [hbc, hb] at hfind
    have hbd : d = b := by injection hfind
    subst hbd
    rw [← hbe, if_pos hc]
    exact ⟨h0, hstock⟩
  · rw [← hbe, if_neg hc]
    exact hinv b hbmem

/-- One `INTEGRADORA` ledger operation preserves both the key uniqueness and
the stock invariant. -/
theorem aplicar_op_preserva (inv : Inventario) (op : LedgerOp)
    (huniq : codigos_unicos inv) (hinv : invariante inv) :
    codigos_unicos (INTEGRADORA.aplicar_op inv op)
    ∧ invariante (INTEGRADORA.aplicar_op inv op) := by
  have habs : ∀ c v, codigos_unicos (actualizar_disponible_abs inv c v) := by
    intro c v
    unfold codigos_unicos
    rw [codigos_de_actualizar_abs]
    exact huniq
  cases op with
  | reserve c q ok =>
    show codigos_unicos (INTEGRADORA.descontar_stock inv c q ok).2
      ∧ invariante (INTEGRADORA.descontar_stock inv c q ok).2
    unfold INTEGRADORA.descontar_stock
    cases hb : buscar_por_codigo inv c with
    | none => exact ⟨huniq, hinv⟩
    | some d =>
      by_cases h1 : d.esta_activo = false
      · simp only [h1, ite_true, if_true]
        exact ⟨huniq, hinv⟩
      · by_cases h2 : q ≤ 0
        · simp only [h1, h2, ite_true, if_true, ite_false, if_false]
          exact ⟨huniq, hinv⟩
        · by_cases h3 : d.disponible < q
          · simp only [h1, h2, h3, ite_true, if_true, ite_false, if_false]
            exact ⟨huniq, hinv⟩
          · by_cases h4 : ok = false
            · simp only [h1, h2, h3, h4, ite_true, if_true, ite_false, if_false]
              exact ⟨huniq, hinv⟩
            · simp only [h1, h2, h3, h4, ite_true, if_true, ite_false, if_false]
              have hd := hinv d (List.mem_of_find?_eq_some hb)
              exact ⟨habs c _,
                invariante_actualizar_abs inv c (d.disponible - q) d huniq hinv hb
                  (by omega) (by omega)⟩
  | release c q ok =>
    show codigos_unicos (INTEGRADORA.aumentar_stock inv c q ok).2
      ∧ invariante (INTEGRADORA.aumentar_stock inv c q ok).2
    unfold INTEGRADORA.aumentar_stock
    cases hb : buscar_por_codigo inv c with
    | none => exact ⟨huniq, hinv⟩
    | some d =>
      by_cases h2 : q ≤ 0
      · simp only [h2, ite_true, if_true]
        exact ⟨huniq, hinv⟩
      · by_cases h3 : d.stock < d.disponible + q
        · simp only [h2, h3, ite_true, if_true, ite_false, if_false]
          exact ⟨huniq, hinv⟩
        · by_cases h4 : ok = false
          · simp only [h2, h3, h4, ite_true, if_true, ite_false, if_false]
            exact ⟨huniq, hinv⟩
          · simp only [h2, h3, h4, ite_true, if_true, ite_false, if_false]
            have hd := hinv d (List.mem_of_find?_eq_some hb)
            exact ⟨habs c _,
              invariante_actualizar_abs inv c (d.disponible + q) d huniq hinv hb
                (by omega) (by omega)⟩

/-- Uniqueness and the invariant survive any operation sequence. -/
theorem foldl_ops_preserva (ops : List LedgerOp) :
    ∀ inv : Inventario, codigos_unicos inv → invariante inv →
    codigos_unicos (ops.foldl INTEGRADORA.aplicar_op inv)
    ∧ invariante (ops.foldl INTEGRADORA.aplicar_op inv) := by
  induction ops with
  | nil => exact fun inv h1 h2 => ⟨h1, h2⟩
  | cons op resto ih =>
    intro inv h1 h2
    simp only [List.foldl_cons]
    obtain ⟨ha, hb⟩ := aplicar_op_preserva inv op h1 h2
    exact ih _ ha hb

/-- C1 (amended): for every inventory with unique item keys satisfying
`0 ≤ available ≤ totalStock` and every sequence of reserve / release
operations run through the `INTEGRADORA` copy's `descontar_stock` /
`aumentar_stock`, the invariant holds after every operation.  The top-level
copy's `aumentar_stock` does not preserve the upper bound: see the
counterexample. -/
theorem invariante_ledger_INTEGRADORA (inv : Inventario) (ops : List LedgerOp)
    (h1 : codigos_unicos inv) (h2 : invariante inv) :
    invariante (ops.foldl INTEGRADORA.aplicar_op inv) :=
  (foldl_ops_preserva ops inv h1 h2).2

/-- Witness for `invariante_ledger_INTEGRADORA`: reserving 2 units of the
Scenario A item and releasing them in two steps keeps the invariant. -/
theorem invariante_ledger_INTEGRADORA_witness :
    codigos_unicos [disfrazX] ∧ invariante [disfrazX]
    ∧ invariante ([LedgerOp.reserve "DIS001" 2 true, LedgerOp.release "DIS001" 1 true,
        LedgerOp.release "DIS001" 1 true].foldl INTEGRADORA.aplicar_op [disfrazX]) :=
  ⟨by decide, by decide,
   invariante_ledger_INTEGRADORA [disfrazX]
     [LedgerOp.reserve "DIS001" 2 true, LedgerOp.release "DIS001" 1 true,
      LedgerOp.release "DIS001" 1 true] (by decide) (by decide)⟩

/-- The amounts accumulated by the registration's validation loop are the
spec's `rentalTotal` and `depositFor` sums, and the validated details carry
the input lines' barcodes and quantities in order. -/
theorem validar_detalles_totales (inv : Inventario) (dias : Int) :
    ∀ (detalles : List DetalleInput) (dv : List DetalleValidado) (t dep : ℚ),
    controllers.validar_detalles inv dias detalles = .ok (dv, t, dep) →
    t = spec_rentalTotal inv detalles dias
    ∧ dep = spec_depositFor inv detalles
    ∧ dv.map (fun v => (v.codigo_barras, v.cantidad))
        = detalles.map (fun it => (it.codigo_barras, it.cantidad)) := by
  intro detalles
  induction detalles with
  | nil =>
    intro dv t dep h
    simp only [controllers.validar_detalles, Except.ok.injEq, Prod.mk.injEq] at h
    obtain ⟨hdv, ht, hdep⟩ := h
    subst hdv
    subst ht
    subst hdep
    refine ⟨?_, ?_, rfl⟩ <;> simp [spec_rentalTotal, spec_depositFor]
  | cons item resto ih =>
    intro dv t dep h
    unfold controllers.validar_detalles at h
    by_cases h1 : item.codigo_barras = "" ∨ item.cantidad ≤ 0
    · rw [if_pos h1] at h
      simp at h
    · rw [if_neg h1] at h
      split at h
      · simp at h
      · split at h
        · simp at h
        · rename_i d hbus
          split at h
          · simp at h
          · split at h
            · simp at h
            · rename_i hinactivo x2 dv2 t2 dep2 hrec
              simp only [Except.ok.injEq, Prod.mk.injEq] at h
              obtain ⟨hdv, ht, hdep⟩ := h
              obtain ⟨ht2, hdep2, hmap2⟩ := ih dv2 t2 dep2 hrec
              subst hdv
              subst ht
              subst hdep
              refine ⟨?_, ?_, ?_⟩
              · simp only [spec_rentalTotal, List.map_cons, List.sum_cons, hbus]
                rw [ht2]
                rfl
              · simp only [spec_depositFor, List.map_cons, List.sum_cons, hbus]
                rw [hdep2]
                rfl
              · simp only [List.map_cons, hmap2]

/-- Validated details and input lines with the same barcode / quantity
columns request the same total per item. -/
theorem suma_igual_cantidad_total (c : String) :
    ∀ (dv : List DetalleValidado) (detalles : List DetalleInput),
    dv.map (fun v => (v.codigo_barras, v.cantidad))
      = detalles.map (fun it => (it.codigo_barras, it.cantidad)) →
    suma_cantidades dv c = cantidad_total detalles c := by
  intro dv
  induction dv with
  | nil =>
    intro detalles h
    cases detalles with
    | nil => rfl
    | cons it resto => simp at h
  | cons v dvr ih =>
    intro detalles h
    cases detalles with
    | nil => simp at h
    | cons it resto =>
      simp only [List.map_cons, List.cons.injEq] at h
      obtain ⟨hhead, htail⟩ := h
      have hc : v.codigo_barras = it.codigo_barras := congrArg Prod.fst hhead
      have hq : v.cantidad = it.cantidad := congrArg Prod.snd hhead
      have hresto := ih resto htail
      unfold suma_cantidades cantidad_total at hresto ⊢
      simp only [List.filter_cons]
      by_cases hcc : v.codigo_barras == c
      · rw [if_pos hcc, if_pos (by rw [← hc]; exact hcc)]
        simp only [List.map_cons, List.sum_cons]
        rw [hq, hresto]
      · rw [if_neg hcc, if_neg (by rw [← hc]; exact hcc)]
        exact hresto

/-- Folding the registration's per-line stock decrements subtracts, for each
barcode, the total quantity its lines carry. -/
theorem disponible_tras_descuentos (dv : List DetalleValidado) :
    ∀ (inv : Inventario) (c : String),
    disponible_de (dv.foldl
      (fun acc v => actualizar_disponible_rel acc v.codigo_barras (-v.cantidad)) inv) c
      = (disponible_de inv c).map (fun x => x - suma_cantidades dv c) := by
  induction dv with
  | nil =>
    intro inv c
    cases h : disponible_de inv c <;> simp [suma_cantidades, h]
  | cons v dvr ih =>
    intro inv c
    simp only [List.foldl_cons]
    rw [ih, disponible_de_actualizar_rel]
    cases h : disponible_de inv c with
    | none => rfl
    | some x =>
      simp only [Option.map_some']
      unfold suma_cantidades
      simp only [List.filter_cons]
      by_cases he : c = v.codigo_barras
      · rw [if_pos he, if_pos (by rw [he]; simp)]
        simp only [List.map_cons, List.sum_cons]
        unfold suma_cantidades at *
        congr 1
        omega
      · rw [if_neg he, if_neg (by simpa using fun hx => he (eq_of_beq hx).symm)]

/-- C5: every successful registration appends exactly one rental header whose
`Total` is `Σ quantity_i * unitRentalRatePerDay_i * requestedDays` and whose
`Deposito` is `Σ quantity_i * unitSalePrice_i` (sale price, not rental
rate), both over the current catalog snapshot, and decrements each item's
`Disponible` by the total quantity its lines request. -/
theorem registrar_renta_totales (db : DB) (id_cliente id_usuario : Int)
    (detalles : List DetalleInput) (dias_renta : Int) (ahora : Int) (falla : Nat → Bool)
    (h : (controllers.registrar_renta db id_cliente id_usuario detalles dias_renta ahora
      falla).1.1 = true) :
    (∃ r : Renta,
      (controllers.registrar_renta db id_cliente id_usuario detalles dias_renta ahora
        falla).2.rentas = db.rentas ++ [r]
      ∧ r.total = spec_rentalTotal db.inventario detalles dias_renta
      ∧ r.deposito = spec_depositFor db.inventario detalles
      ∧ r.estado = "Activa"
      ∧ r.dias_renta = dias_renta)
    ∧ ∀ (codigo : String) (d : Disfraz), buscar_por_codigo db.inventario codigo = some d →
        disponible_de (controllers.registrar_renta db id_cliente id_usuario detalles
          dias_renta ahora falla).2.inventario codigo
          = some (d.disponible - cantidad_total detalles codigo) := by
  by_cases h1 : detalles.length = 0
  · simp [controllers.registrar_renta, h1] at h
  by_cases h2 : dias_renta ≤ 0
  · simp [controllers.registrar_renta, h1, h2] at h
  by_cases h3 : 30 < dias_renta
  · simp [controllers.registrar_renta, h1, h2, h3] at h
  cases hval : controllers.validar_detalles db.inventario dias_renta detalles with
  | error m => simp [controllers.registrar_renta, h1, h2, h3, hval] at h
  | ok triple =>
    obtain ⟨dv, t, dep⟩ := triple
    cases hvr : Renta.validar_renta
      { id_renta := none, id_cliente := id_cliente, id_usuario := id_usuario,
        fecha_renta := ahora, fecha_devolucion := ahora + dias_renta * 86400,
        fecha_devuelto := none, penalizacion := 0, dias_renta := dias_renta,
        total := t, deposito := dep, estado := "Activa" } dv.length with
    | mk b m0 =>
      cases b with
      | false => simp [controllers.registrar_renta, h1, h2, h3, hval, hvr] at h
      | true =>
        by_cases hf0 : falla 0
        · simp [controllers.registrar_renta, h1, h2, h3, hval, hvr, hf0] at h
        by_cases hnid : db.next_id = 0
        · simp [controllers.registrar_renta, h1, h2, h3, hval, hvr, hf0, hnid] at h
        by_cases hany : ((List.range (2 * dv.length)).any (fun i => falla (i + 1))) = true
        · simp [controllers.registrar_renta, h1, h2, h3, hval, hvr, hf0, hnid, hany] at h
        have hrun : controllers.registrar_renta db id_cliente id_usuario detalles
            dias_renta ahora falla
            = ((true, "Renta registrada exitosamente", some db.next_id),
               { db with
                   inventario := dv.foldl
                     (fun acc v => actualizar_disponible_rel acc v.codigo_barras
                       (-v.cantidad)) db.inventario,
                   rentas := db.rentas ++
                     [{ id_renta := some db.next_id, id_cliente := id_cliente,
                        id_usuario := id_usuario, fecha_renta := ahora,
                        fecha_devolucion := ahora + dias_renta * 86400,
                        fecha_devuelto := none, penalizacion := 0,
                        dias_renta := dias_renta, total := t, deposito := dep,
                        estado := "Activa" }],
                   detalle_rentas := db.detalle_rentas ++ dv.map (fun v =>
                     { id_renta := db.next_id, codigo_barras := v.codigo_barras,
                       cantidad := v.cantidad, precio_unitario := v.precio_unitario,
                       subtotal := v.subtotal : DetalleRow }),
                   next_id := db.next_id + 1 }) := by
          simp [controllers.registrar_renta, h1, h2, h3, hval, hvr, hf0, hnid, hany]
        obtain ⟨ht, hdep, hmap⟩ :=
          validar_detalles_totales db.inventario dias_renta detalles dv t dep hval
        constructor
        · exact ⟨_, by rw [hrun], by rw [← ht], by rw [← hdep], rfl, rfl⟩
        · intro codigo d hbus
          rw [hrun]
          show disponible_de (dv.foldl
            (fun acc v => actualizar_disponible_rel acc v.codigo_barras (-v.cantidad))
            db.inventario) codigo = _
          rw [disponible_tras_descuentos, suma_igual_cantidad_total codigo dv detalles hmap]
          unfold disponible_de
          rw [hbus]
          simp

/-- Witness for `registrar_renta_totales`: Scenario A — registering 2 units
of `disfrazX` for 3 days succeeds with `rentalTotal = 900`,
`deposit = 1600`, and `available` dropping from 10 to 8. -/
theorem registrar_renta_totales_witness :
    ((controllers.registrar_renta dbA 1 1 [⟨"DIS001", 2⟩] 3 0 (fun _ => false)).1.1 = true)
    ∧ spec_rentalTotal dbA.inventario [⟨"DIS001", 2⟩] 3 = 900
    ∧ spec_depositFor dbA.inventario [⟨"DIS001", 2⟩] = 1600
    ∧ cantidad_total [⟨"DIS001", 2⟩] "DIS001" = 2
    ∧ ((∃ r : Renta,
        (controllers.registrar_renta dbA 1 1 [⟨"DIS001", 2⟩] 3 0
          (fun _ => false)).2.rentas = dbA.rentas ++ [r]
        ∧ r.total = spec_rentalTotal dbA.inventario [⟨"DIS001", 2⟩] 3
        ∧ r.deposito = spec_depositFor dbA.inventario [⟨"DIS001", 2⟩]
        ∧ r.estado = "Activa"
        ∧ r.dias_renta = 3)
      ∧ ∀ (codigo : String) (d : Disfraz),
          buscar_por_codigo dbA.inventario codigo = some d →
          disponible_de (controllers.registrar_renta dbA 1 1 [⟨"DIS001", 2⟩] 3 0
            (fun _ => false)).2.inventario codigo
            = some (d.disponible - cantidad_total [⟨"DIS001", 2⟩] codigo)) := by
  have hexito : (controllers.registrar_renta dbA 1 1 [⟨"DIS001", 2⟩] 3 0
      (fun _ => false)).1.1 = true := by
    simp [controllers.registrar_renta, controllers.validar_detalles,
      controllers.verificar_disponibilidad, buscar_por_codigo, dbA, disfrazX,
      Disfraz.esta_activo, Renta.validar_renta]
    norm_num
  refine ⟨hexito, ?_, ?_, ?_,
    registrar_renta_totales dbA 1 1 [⟨"DIS001", 2⟩] 3 0 (fun _ => false) hexito⟩
  · simp [spec_rentalTotal, buscar_por_codigo, dbA, disfrazX]
    norm_num
  · simp [spec_depositFor, buscar_por_codigo, dbA, disfrazX]
    norm_num
  · decide

/-- For a not-yet-returned rental, the code's late-day count is the spec's
`max(0, floor((now - dueDate) in days))`. -/
theorem dias_de_retraso_formula (r : Renta) (ahora : Int)
    (hestado : r.estado = "Activa" ∨ r.estado = "Vencida")
    (hdev : r.fecha_devuelto = none) :
    r.dias_de_retraso ahora = max 0 ((ahora - r.fecha_devolucion).fdiv 86400) := by
  unfold Renta.dias_de_retraso
  have hcond : ¬ (r.esta_activa = false ∧ r.esta_vencida = false) := by
    cases hestado with
    | inl h => simp [Renta.esta_activa, h]
    | inr h => simp [Renta.esta_vencida, h]
  rw [if_neg hcond, hdev]
  simp only [Option.getD_none]
  by_cases hlt : r.fecha_devolucion < ahora
  · rw [if_pos hlt]
    have h0 : 0 ≤ (ahora - r.fecha_devolucion).fdiv 86400 :=
      Int.fdiv_nonneg (by omega) (by norm_num)
    omega
  · rw [if_neg hlt]
    have hle : (ahora - r.fecha_devolucion).fdiv 86400 ≤ 0 := by
      rw [Int.fdiv_eq_ediv _ (by norm_num)]
      have h2 := Int.ediv_le_ediv (show (0:Int) < 86400 by norm_num)
        (show ahora - r.fecha_devolucion ≤ 0 by omega)
      simpa using h2
    omega

/-- The code's penalty is `daysLate * penaltyPerDay` whenever `daysLate` is
non-negative (it is zero when `daysLate = 0`). -/
theorem calcular_penalizacion_formula (r : Renta) (ahora : Int) (pen : ℚ)
    (hpos : 0 ≤ r.dias_de_retraso ahora) :
    r.calcular_penalizacion ahora pen = (r.dias_de_retraso ahora : ℚ) * pen := by
  unfold Renta.calcular_penalizacion
  by_cases h : 0 < r.dias_de_retraso ahora
  · rw [if_pos h]
  · rw [if_neg h]
    have h0 : r.dias_de_retraso ahora = 0 := by omega
    rw [h0]
    simp

/-- C6: a successful return of an `Activa` or `Vencida` rental reports
`daysLate = max(0, floor((now - dueDate) in days))`,
`penalty = daysLate * penaltyPerDay` (zero when `daysLate = 0`), and returns
the deposit in full as a separate field never netted against the penalty. -/
theorem devolver_renta_liquidacion (db : DB) (id_renta id_usuario : Int) (ahora : Int)
    (pen_dia : ℚ) (renta : Renta)
    (h1 : buscar_renta_por_id db id_renta = some renta)
    (h2 : renta.estado = "Activa" ∨ renta.estado = "Vencida")
    (h3 : (db.detalle_rentas.filter (fun d => d.id_renta == id_renta)).length ≠ 0)
    (h4 : renta.fecha_devuelto = none) :
    ∃ info : InfoFinanciera,
      (controllers.devolver_renta db id_renta id_usuario ahora pen_dia (fun _ => false)).1
        = (true, "Renta devuelta exitosamente", some info)
      ∧ info.dias_retraso = max 0 ((ahora - renta.fecha_devolucion).fdiv 86400)
      ∧ info.penalizacion = (info.dias_retraso : ℚ) * pen_dia
      ∧ (info.dias_retraso = 0 → info.penalizacion = 0)
      ∧ info.deposito_devuelto = renta.deposito
      ∧ info.deposito = renta.deposito := by
  have hdev : renta.esta_devuelta = false := by
    cases h2 with
    | inl h => simp [Renta.esta_devuelta, h]
    | inr h => simp [Renta.esta_devuelta, h]
  have hact : ¬ (renta.esta_activa = false ∧ renta.esta_vencida = false) := by
    cases h2 with
    | inl h => simp [Renta.esta_activa, h]
    | inr h => simp [Renta.esta_vencida, h]
  have hdias := dias_de_retraso_formula renta ahora h2 h4
  have hpos : 0 ≤ renta.dias_de_retraso ahora := by
    rw [hdias]
    exact le_max_left 0 _
  refine ⟨{ total_renta := renta.total, deposito := renta.deposito,
            dias_retraso := renta.dias_de_retraso ahora,
            penalizacion := renta.calcular_penalizacion ahora pen_dia,
            deposito_devuelto := renta.deposito_a_devolver,
            cobrar_adicional := max 0 (renta.calcular_penalizacion ahora pen_dia) },
    ?_, hdias, calcular_penalizacion_formula renta ahora pen_dia hpos, ?_,
    rfl, rfl⟩
  · simp [controllers.devolver_renta, h1, hdev, hact, h3]
  · intro hz
    show renta.calcular_penalizacion ahora pen_dia = 0
    rw [calcular_penalizacion_formula renta ahora pen_dia hpos]
    have hz2 : renta.dias_de_retraso ahora = 0 := hz
    rw [hz2]
    simp

/-- Witness for `devolver_renta_liquidacion`: Scenario B — `rentaB` returned
3 days past its due date with `penaltyPerDay = 50` settles with
`daysLate = 3`, `penalty = 150`, and the full deposit 1600 returned. -/
theorem devolver_renta_liquidacion_witness :
    ∃ info : InfoFinanciera,
      (controllers.devolver_renta dbB 1 1 518400 50 (fun _ => false)).1
        = (true, "Renta devuelta exitosamente", some info)
      ∧ info.dias_retraso = 3
      ∧ info.penalizacion = 150
      ∧ info.deposito_devuelto = 1600 := by
  obtain ⟨info, hres, hdias, hpen, _, hdep, _⟩ :=
    devolver_renta_liquidacion dbB 1 1 518400 50 rentaB (by decide) (Or.inl rfl)
      (by decide) rfl
  have hdias3 : info.dias_retraso = 3 := by
    rw [hdias]
    decide
  refine ⟨info, hres, hdias3, ?_, ?_⟩
  · rw [hpen, hdias3]
    norm_num
  · rw [hdep]
    show (1600 : ℚ) = 1600
    norm_num

end MaskNGo
